import Mathlib

/-
Verification development for the client-side workflow logic in
`src/static/js/main.js` of the Autoreplicate repository.

The JavaScript is shallowly embedded: JSON/JS runtime values become the
inductive `JsonValue` (the code only ever handles values obtained from
`response.json()`, so `undefined` is represented by `Option.none` at the
points where a property lookup can miss); property access on `null`
(a JS `TypeError`) is modelled by `Except.error`; the four asynchronous
workflow operations become pure functions from their inputs, the current
global state and a backend-response oracle to the new state plus a list
of observable effects (alerts, network calls, status updates, ...).

Browser / library builtins that the code calls are modelled explicitly
where the claims depend on them (`JSON.parse`, `JSON.stringify`, string
coercion, `classList`, the Chart.js instance lifecycle); the models are
documented at each definition.
-/

namespace Autoreplicate

/-- A JavaScript value as produced by `response.json()`: JSON values.
Numbers are modelled as integers (the claims under study never depend on
fractional numeric literals inside `key_factors`). -/
inductive JsonValue where
  | null
  | bool (b : Bool)
  | num (n : Int)
  | str (s : String)
  | arr (elems : List JsonValue)
  | obj (fields : List (String × JsonValue))

mutual

/-- Boolean structural equality on `JsonValue`. -/
def JsonValue.beq : JsonValue → JsonValue → Bool
  | .null, .null => true
  | .bool a, .bool b => a == b
  | .num a, .num b => a == b
  | .str a, .str b => a == b
  | .arr xs, .arr ys => beqValList xs ys
  | .obj fs, .obj gs => beqFieldList fs gs
  | _, _ => false

/-- Boolean equality on lists of `JsonValue`. -/
def beqValList : List JsonValue → List JsonValue → Bool
  | [], [] => true
  | x :: xs, y :: ys => JsonValue.beq x y && beqValList xs ys
  | _, _ => false

/-- Boolean equality on object field lists. -/
def beqFieldList : List (String × JsonValue) → List (String × JsonValue) → Bool
  | [], [] => true
  | (k, v) :: fs, (k', v') :: gs => k == k' && JsonValue.beq v v' && beqFieldList fs gs
  | _, _ => false

end

mutual

theorem JsonValue.beq_refl : ∀ a : JsonValue, JsonValue.beq a a = true
  | .null => rfl
  | .bool a => by simp [JsonValue.beq]
  | .num a => by simp [JsonValue.beq]
  | .str a => by simp [JsonValue.beq]
  | .arr xs => by simp [JsonValue.beq, beqValList_refl xs]
  | .obj fs => by simp [JsonValue.beq, beqFieldList_refl fs]

theorem beqValList_refl : ∀ xs : List JsonValue, beqValList xs xs = true
  | [] => rfl
  | x :: xs => by simp [beqValList, JsonValue.beq_refl x, beqValList_refl xs]

theorem beqFieldList_refl : ∀ fs : List (String × JsonValue), beqFieldList fs fs = true
  | [] => rfl
  | (k, v) :: fs => by
      simp [beqFieldList, JsonValue.beq_refl v, beqFieldList_refl fs]

end

mutual

theorem JsonValue.beq_sound : ∀ a b : JsonValue, JsonValue.beq a b = true → a = b
  | .null, .null, _ => rfl
  | .bool a, .bool b, h => by simpa [JsonValue.beq] using h
  | .num a, .num b, h => by simpa [JsonValue.beq] using h
  | .str a, .str b, h => by simpa [JsonValue.beq] using h
  | .arr xs, .arr ys, h => by
      have := beqValList_sound xs ys (by simpa [JsonValue.beq] using h)
      simp [this]
  | .obj fs, .obj gs, h => by
      have := beqFieldList_sound fs gs (by simpa [JsonValue.beq] using h)
      simp [this]
  | .null, .bool _, h => by simp [JsonValue.beq] at h
  | .null, .num _, h => by simp [JsonValue.beq] at h
  | .null, .str _, h => by simp [JsonValue.beq] at h
  | .null, .arr _, h => by simp [JsonValue.beq] at h
  | .null, .obj _, h => by simp [JsonValue.beq] at h
  | .bool _, .null, h => by simp [JsonValue.beq] at h
  | .bool _, .num _, h => by simp [JsonValue.beq] at h
  | .bool _, .str _, h => by simp [JsonValue.beq] at h
  | .bool _, .arr _, h => by simp [JsonValue.beq] at h
  | .bool _, .obj _, h => by simp [JsonValue.beq] at h
  | .num _, .null, h => by simp [JsonValue.beq] at h
  | .num _, .bool _, h => by simp [JsonValue.beq] at h
  | .num _, .str _, h => by simp [JsonValue.beq] at h
  | .num _, .arr _, h => by simp [JsonValue.beq] at h
  | .num _, .obj _, h => by simp [JsonValue.beq] at h
  | .str _, .null, h => by simp [JsonValue.beq] at h
  | .str _, .bool _, h => by simp [JsonValue.beq] at h
  | .str _, .num _, h => by simp [JsonValue.beq] at h
  | .str _, .arr _, h => by simp [JsonValue.beq] at h
  | .str _, .obj _, h => by simp [JsonValue.beq] at h
  | .arr _, .null, h => by simp [JsonValue.beq] at h
  | .arr _, .bool _, h => by simp [JsonValue.beq] at h
  | .arr _, .num _, h => by simp [JsonValue.beq] at h
  | .arr _, .str _, h => by simp [JsonValue.beq] at h
  | .arr _, .obj _, h => by simp [JsonValue.beq] at h
  | .obj _, .null, h => by simp [JsonValue.beq] at h
  | .obj _, .bool _, h => by simp [JsonValue.beq] at h
  | .obj _, .num _, h => by simp [JsonValue.beq] at h
  | .obj _, .str _, h => by simp [JsonValue.beq] at h
  | .obj _, .arr _, h => by simp [JsonValue.beq] at h

theorem beqValList_sound : ∀ xs ys : List JsonValue, beqValList xs ys = true → xs = ys
  | [], [], _ => rfl
  | [], _ :: _, h => by simp [beqValList] at h
  | _ :: _, [], h => by simp [beqValList] at h
  | x :: xs, y :: ys, h => by
      have h' : JsonValue.beq x y = true ∧ beqValList xs ys = true := by
        simpa [beqValList, Bool.and_eq_true] using h
      have h1 := JsonValue.beq_sound x y h'.1
      have h2 := beqValList_sound xs ys h'.2
      simp [h1, h2]

theorem beqFieldList_sound :
    ∀ fs gs : List (String × JsonValue), beqFieldList fs gs = true → fs = gs
  | [], [], _ => rfl
  | [], _ :: _, h => by simp [beqFieldList] at h
  | _ :: _, [], h => by simp [beqFieldList] at h
  | (k, v) :: fs, (k', v') :: gs, h => by
      have h' : (k == k') = true ∧ JsonValue.beq v v' = true ∧ beqFieldList fs gs = true := by
        simpa [beqFieldList, Bool.and_eq_true, and_assoc] using h
      have h1 : k = k' := by simpa using h'.1
      have h2 := JsonValue.beq_sound v v' h'.2.1
      have h3 := beqFieldList_sound fs gs h'.2.2
      simp [h1, h2, h3]

end

instance : DecidableEq JsonValue := fun a b =>
  if h : JsonValue.beq a b = true then
    isTrue (JsonValue.beq_sound a b h)
  else
    isFalse (fun he => h (by rw [he]; exact JsonValue.beq_refl b))

instance {ε α : Type} [DecidableEq ε] [DecidableEq α] : DecidableEq (Except ε α) := fun a b =>
  match a, b with
  | .error e, .error f =>
      if h : e = f then isTrue (congrArg Except.error h)
      else isFalse (fun hh => h (Except.error.inj hh))
  | .ok x, .ok y =>
      if h : x = y then isTrue (congrArg Except.ok h)
      else isFalse (fun hh => h (Except.ok.inj hh))
  | .error _, .ok _ => isFalse (fun hh => Except.noConfusion hh)
  | .ok _, .error _ => isFalse (fun hh => Except.noConfusion hh)

/-- JS truthiness of a value: `null`, `false`, `0` and `""` are falsy;
every array and object (even empty) is truthy. -/
def jsTruthy : JsonValue → Bool
  | .null => false
  | .bool b => b
  | .num n => n != 0
  | .str s => s ≠ ""
  | .arr _ => true
  | .obj _ => true

/-- Truthiness of a possibly-`undefined` value (`none` = `undefined`). -/
def truthyOpt : Option JsonValue → Bool
  | none => false
  | some v => jsTruthy v

/-- First binding of a key in the field list of an object (JS object keys are
unique; the JSON parser below deduplicates on construction). -/
def jsLookup : List (String × JsonValue) → String → Option JsonValue
  | [], _ => none
  | (k, v) :: rest, key => if k = key then some v else jsLookup rest key

/-- Property access `v.key` that cannot throw: on an object it is the
field lookup, on any other non-`null` value it is `undefined` (`none`).
Callers must separately rule out `null` receivers (see `jsGetField`). -/
def jsField : JsonValue → String → Option JsonValue
  | .obj fields, key => jsLookup fields key
  | _, _ => none

/-- Property access `v.key` as it evaluates in JS: reading a property of
`null` throws a `TypeError` (modelled by `Except.error ()`), any other
receiver yields the field value or `undefined`. -/
def jsGetField : JsonValue → String → Except Unit (Option JsonValue)
  | .null, _ => .error ()
  | v, key => .ok (jsField v key)

/-- Length of `Object.keys(v)`: own enumerable keys — field count for
objects, index count for arrays, character count for strings, `0` for
other primitives (`Object.keys(null)` would throw but every use in the
source is guarded by a truthiness check first). -/
def jsKeysLength : JsonValue → Nat
  | .obj fields => fields.length
  | .arr elems => elems.length
  | .str s => s.length
  | _ => 0

mutual

/-- JS string coercion `String(v)` (also the template-literal and `+`
coercion used by the source): strings verbatim, numbers and booleans in
decimal/keyword form, `null` as "null", arrays joined by commas with
`null` entries rendered empty, plain objects as "[object Object]". -/
def jsToString : JsonValue → String
  | .null => "null"
  | .bool b => cond b "true" "false"
  | .num n => toString n
  | .str s => s
  | .arr elems => jsArrToString elems
  | .obj _ => "[object Object]"

/-- Coercion of the element list of an array (Array.prototype.toString),
i.e. `join(",")` where `null` elements render as the empty string. -/
def jsArrToString : List JsonValue → String
  | [] => ""
  | [JsonValue.null] => ""
  | [v] => jsToString v
  | JsonValue.null :: rest => "," ++ jsArrToString rest
  | v :: rest => jsToString v ++ "," ++ jsArrToString rest

end

/-- Escape of one character inside a JSON string literal (quotes and
backslashes; the control-character escapes of full JSON.stringify are
not exercised by any claim and are left out of the model). -/
def escapeJsonChar (c : Char) : List Char :=
  if c = '"' then ['\\', '"'] else if c = '\\' then ['\\', '\\'] else [c]

/-- Escape a string for inclusion in JSON output. -/
def escapeJson (s : String) : String :=
  String.mk (s.data.foldr (fun c acc => escapeJsonChar c ++ acc) [])

mutual

/-- Model of `JSON.stringify` on JSON values (no `undefined` inputs
occur at its call sites in the source). -/
def jsonStringify : JsonValue → String
  | .null => "null"
  | .bool b => cond b "true" "false"
  | .num n => toString n
  | .str s => "\"" ++ escapeJson s ++ "\""
  | .arr elems => "[" ++ stringifyItems elems ++ "]"
  | .obj fields => "\x7b" ++ stringifyMembers fields ++ "\x7d"

/-- Comma-separated serialization of the elements of an array. -/
def stringifyItems : List JsonValue → String
  | [] => ""
  | [v] => jsonStringify v
  | v :: rest => jsonStringify v ++ "," ++ stringifyItems rest

/-- Comma-separated serialization of the members of an object. -/
def stringifyMembers : List (String × JsonValue) → String
  | [] => ""
  | [(k, v)] => "\"" ++ escapeJson k ++ "\":" ++ jsonStringify v
  | (k, v) :: rest =>
      "\"" ++ escapeJson k ++ "\":" ++ jsonStringify v ++ "," ++ stringifyMembers rest

end

/-- JSON whitespace test. -/
def isJsonWs (c : Char) : Bool :=
  c = ' ' || c = '\n' || c = '\t' || c = '\r'

/-- Drop leading JSON whitespace. -/
def skipWs : List Char → List Char
  | [] => []
  | c :: rest => if isJsonWs c then skipWs rest else c :: rest

/-- Numeric value of a digit run. -/
def digitsToNat (ds : List Char) : Nat :=
  ds.foldl (fun acc c => acc * 10 + (c.toNat - '0'.toNat)) 0

/-- Parse a nonempty run of decimal digits; fails on no digit. -/
def parseDigits (cs : List Char) : Option (Nat × List Char) :=
  let ds := cs.takeWhile (fun c => c.isDigit)
  if ds.isEmpty then none else some (digitsToNat ds, cs.drop ds.length)

/-- Unescape of one escaped character in a JSON string literal. -/
def unescapeJsonChar (c : Char) : Option Char :=
  if c = '"' then some '"'
  else if c = '\\' then some '\\'
  else if c = '/' then some '/'
  else if c = 'n' then some '\n'
  else if c = 't' then some '\t'
  else if c = 'r' then some '\r'
  else none

/-- Parse the body of a JSON string literal after the opening quote,
up to and including the closing quote. -/
def parseStringBody : List Char → Option (List Char × List Char)
  | [] => none
  | '"' :: rest => some ([], rest)
  | '\\' :: c :: rest =>
      match unescapeJsonChar c with
      | some e =>
          match parseStringBody rest with
          | some (s, r) => some (e :: s, r)
          | none => none
      | none => none
  | c :: rest =>
      match parseStringBody rest with
      | some (s, r) => some (c :: s, r)
      | none => none

/-- Insert a key/value pair into the field list of an object, replacing an
existing binding in place (JS object semantics for duplicate keys in a
JSON text: last value wins, first position kept). -/
def insertKey : List (String × JsonValue) → String → JsonValue → List (String × JsonValue)
  | [], k, v => [(k, v)]
  | (k', v') :: rest, k, v =>
      if k' = k then (k', v) :: rest else (k', v') :: insertKey rest k v

/-- Build a JS object from members in textual order: a later duplicate
key overwrites the value while the first occurrence keeps its position. -/
def objOfMembers (members : List (String × JsonValue)) : List (String × JsonValue) :=
  members.foldl (fun acc kv => insertKey acc kv.1 kv.2) []

mutual

/-- Fuel-based recursive-descent model of `JSON.parse` (values).
Supports null/true/false, optionally-signed integer numbers, string
literals with the basic escapes, arrays and objects; fractional and
exponent number forms are outside the model (their absence only makes
the modelled parse fail where JS would succeed, which the claims treat
the same as any other non-sequence/failed parse). -/
def parseVal : Nat → List Char → Option (JsonValue × List Char)
  | 0, _ => none
  | Nat.succ fuel, cs =>
    match skipWs cs with
    | 'n' :: 'u' :: 'l' :: 'l' :: rest => some (.null, rest)
    | 't' :: 'r' :: 'u' :: 'e' :: rest => some (.bool true, rest)
    | 'f' :: 'a' :: 'l' :: 's' :: 'e' :: rest => some (.bool false, rest)
    | '"' :: rest =>
        match parseStringBody rest with
        | some (s, r) => some (.str (String.mk s), r)
        | none => none
    | '[' :: rest =>
        (match skipWs rest with
         | ']' :: r => some (.arr [], r)
         | more => match parseItems fuel more with
                   | some (items, r) => some (.arr items, r)
                   | none => none)
    | '\x7b' :: rest =>
        (match skipWs rest with
         | '\x7d' :: r => some (.obj [], r)
         | more => match parseMembers fuel more with
                   | some (fields, r) => some (.obj (objOfMembers fields), r)
                   | none => none)
    | '-' :: rest =>
        (match parseDigits rest with
         | some (n, r) => some (.num (-(n : Int)), r)
         | none => none)
    | c :: rest =>
        if c.isDigit then
          match parseDigits (c :: rest) with
          | some (n, r) => some (.num (n : Int), r)
          | none => none
        else none
    | [] => none

/-- Elements of a nonempty array body, up to and including `]`. -/
def parseItems : Nat → List Char → Option (List JsonValue × List Char)
  | 0, _ => none
  | Nat.succ fuel, cs =>
    match parseVal fuel cs with
    | some (v, rest) =>
        (match skipWs rest with
         | ',' :: more =>
             (match parseItems fuel more with
              | some (items, r) => some (v :: items, r)
              | none => none)
         | ']' :: r => some ([v], r)
         | _ => none)
    | none => none

/-- Members of a nonempty object body, up to and including the closing
brace, deduplicating keys as JS does. -/
def parseMembers : Nat → List Char → Option (List (String × JsonValue) × List Char)
  | 0, _ => none
  | Nat.succ fuel, cs =>
    match skipWs cs with
    | '"' :: rest =>
        (match parseStringBody rest with
         | some (k, afterKey) =>
             (match skipWs afterKey with
              | ':' :: afterColon =>
                  (match parseVal fuel afterColon with
                   | some (v, rest') =>
                       (match skipWs rest' with
                        | ',' :: more =>
                            (match parseMembers fuel more with
                             | some (fields, r) =>
                                 some ((String.mk k, v) :: fields, r)
                             | none => none)
                        | '\x7d' :: r => some ([(String.mk k, v)], r)
                        | _ => none)
                   | none => none)
              | _ => none)
         | none => none)
    | _ => none

end

/-- Model of `JSON.parse(s)`: parse one value, require only trailing
whitespace afterwards; `none` models the thrown `SyntaxError`. -/
def jsonParse (s : String) : Option JsonValue :=
  match parseVal (s.length + 1) s.data with
  | some (v, rest) => if skipWs rest = [] then some v else none
  | none => none

/-- One displayed key-factor record, with the three fields interpolated
into the factor template of `displayExtractionResults`. -/
structure Factor where
  name : String
  description : String
  type : String
deriving DecidableEq

/-- The four possible outcomes of the `key_factors` handling in
`displayExtractionResults` (main.js lines 168-210): a list of factor
records, the non-array-JSON format-error marker, the failed-parse
marker carrying the raw text, and the nothing-extracted marker. -/
inductive FactorsDisplay where
  | factors (fs : List Factor)
  | formatError
  | parseFailure (raw : String)
  | noFactors
deriving DecidableEq

/-- Value of the template interpolation `VALUE-OR-DEFAULT` produced by
the source reading `factor.FIELD || DEFAULT`: the default when the field is
`undefined` or falsy, otherwise the string coercion of the value. -/
def fieldVal : Option JsonValue → String → String
  | none, dflt => dflt
  | some v, dflt => if jsTruthy v then jsToString v else dflt

/-- One element of the factor array as mapped by lines 172-177 / 183-188
of main.js: each of `factor.name`, `factor.description`, `factor.type`
is read (which throws when `factor` is `null`) and defaulted to
未知因子/无描述/未分类 when absent or falsy. -/
def factorOfElem (factor : JsonValue) : Except Unit Factor :=
  match jsGetField factor "name" with
  | .error e => .error e
  | .ok n =>
    match jsGetField factor "description" with
    | .error e => .error e
    | .ok d =>
      match jsGetField factor "type" with
      | .error e => .error e
      | .ok t =>
        .ok { name := fieldVal n "未知因子"
              description := fieldVal d "无描述"
              type := fieldVal t "未分类" }

/-- The `key_factors.map(factor => ...)` over a factor array, with the
`TypeError` of any element propagating (JS `Array.prototype.map` runs
the callback left to right and the first throw aborts the map). -/
def mapFactors : List JsonValue → Except Unit (List Factor)
  | [] => .ok []
  | x :: xs =>
    match factorOfElem x with
    | .error e => .error e
    | .ok f =>
      match mapFactors xs with
      | .error e => .error e
      | .ok fs => .ok (f :: fs)

/-- The `key_factors` branch of `displayExtractionResults` (main.js
lines 170-210), resolved over the JS truthiness and typeof semantics of
the if/else chain of the source:
- an array value (always truthy, `Array.isArray` holds) is mapped
  element-wise;
- a nonempty string (truthy, typeof string) is JSON-parsed: an
  array result is mapped element-wise, any other result gives the
  format-error marker, a parse failure gives the failed-parse marker
  with the raw text;
- an object (truthy, typeof object) is converted entry-wise
  with `Object.entries`, the value serialized by `JSON.stringify`
  unless it is a string, the type fixed to 提取的因子;
- everything else (absent, `null`, `false`/`true`, numbers, the empty
  string — all either falsy or of a `typeof` the chain does not test)
  falls through to the nothing-extracted marker. -/
def normalizeKeyFactors : Option JsonValue → Except Unit FactorsDisplay
  | some (.arr elems) =>
    (match mapFactors elems with
     | .error e => .error e
     | .ok fs => .ok (.factors fs))
  | some (.str s) =>
    if s = "" then .ok .noFactors
    else
      match jsonParse s with
      | some (.arr elems) =>
        (match mapFactors elems with
         | .error e => .error e
         | .ok fs => .ok (.factors fs))
      | some _ => .ok .formatError
      | none => .ok (.parseFailure s)
  | some (.obj fields) =>
    .ok (.factors (fields.map (fun kv =>
      { name := kv.1
        description := match kv.2 with
          | .str t => t
          | v => jsonStringify v
        type := "提取的因子" })))
  | _ => .ok .noFactors

/-- HTML of one factor record, canonical form of the per-factor source
template (the three source templates differ only in indentation
whitespace, which is normalized away here). -/
def factorHtml (f : Factor) : String :=
  "<div class=\"mb-2\"><strong>" ++ f.name ++ ":</strong> " ++ f.description ++
    " <span class=\"badge bg-secondary\">" ++ f.type ++ "</span></div>"

/-- The innerHTML written to the keyFactors container for each outcome,
with the three marker strings exactly as in the source. -/
def renderFactorsHtml : FactorsDisplay → String
  | .factors fs => String.join (fs.map factorHtml)
  | .formatError => "<div class=\"alert alert-warning\">关键因子数据格式错误</div>"
  | .parseFailure raw =>
      "<div class=\"alert alert-warning\">关键因子解析失败: " ++ raw ++ "</div>"
  | .noFactors => "<div class=\"alert alert-info\">未提取到关键因子信息</div>"

/-- Whole-function outcome of `displayExtractionResults(info)` (main.js
lines 147-218) restricted to its decision-relevant effect: on a `null`
or `undefined` argument the very first access `info.datasets` throws;
otherwise the dataset/problem/solution sections use only optional
chaining and cannot throw, and the outcome is the `key_factors`
resolution on `info.key_factors`. -/
def displayExtractionResults : Option JsonValue → Except Unit FactorsDisplay
  | none => .error ()
  | some .null => .error ()
  | some info => normalizeKeyFactors (jsField info "key_factors")

/-- The four step statuses of `updateStatus` (main.js lines 13-37). -/
inductive Status where
  | pending
  | processing
  | success
  | error
deriving DecidableEq

/-- The `statusClasses` dictionary of `updateStatus`. -/
def statusClass : Status → String
  | .pending => "bg-secondary"
  | .processing => "bg-warning"
  | .success => "bg-success"
  | .error => "bg-danger"

/-- The `statusTexts` dictionary of `updateStatus`. -/
def statusText : Status → String
  | .pending => "待处理"
  | .processing => "处理中"
  | .success => "已完成"
  | .error => "失败"

/-- `Object.values(statusClasses)` in dictionary insertion order,
the list iterated by the class-removal loop. -/
def allStatusClasses : List String :=
  ["bg-secondary", "bg-warning", "bg-success", "bg-danger"]

/-- The status badge element: its class list and text content. -/
structure StatusEl where
  classes : List String
  text : String
deriving DecidableEq

/-- DOM `classList.remove(cls)`: every occurrence of the token goes. -/
def classListRemove (classes : List String) (cls : String) : List String :=
  classes.filter (fun c => c ≠ cls)

/-- DOM `classList.add(cls)`: appended unless already present. -/
def classListAdd (classes : List String) (cls : String) : List String :=
  if cls ∈ classes then classes else classes ++ [cls]

/-- `updateStatus` on the badge element (main.js lines 13-37): remove
every class of `statusClasses`, add the class of the new status, set
the label text. -/
def updateStatus (el : StatusEl) (status : Status) : StatusEl :=
  { classes := classListAdd (allStatusClasses.foldl classListRemove el.classes)
      (statusClass status)
    text := statusText status }

/-- The mutable pipeline globals of main.js (lines 2-4). Each holds a
JS value assigned from a backend response field, so a field may be any
JSON value or `undefined` (`none`); initially each is the empty string.
The chart handle (line 5) is modelled separately with `ChartState`. -/
structure AppState where
  currentMarkdownContent : Option JsonValue
  currentExtractedInfo : Option JsonValue
  currentFactorCode : Option JsonValue
deriving DecidableEq

/-- The globals at page load. -/
def initialState : AppState :=
  { currentMarkdownContent := some (.str "")
    currentExtractedInfo := some (.obj [])
    currentFactorCode := some (.str "") }

/-- Observable effects of one workflow operation, in program order:
alerts, the issued fetch (by URL), status updates, the loading
affordance, result-pane reveals, control toggles, DOM text/html writes,
and the handoff to the backtest renderer. -/
inductive Ev where
  | alert (msg : String)
  | network (url : String)
  | status (step : String) (st : Status)
  | showLoading (ctx : String)
  | hideLoading (ctx : String)
  | showResult (id : String)
  | toggleButton (id : String) (enabled : Bool)
  | toggleInput (id : String) (enabled : Bool)
  | setText (id : String) (content : String)
  | setHtml (id : String) (content : String)
  | renderBacktest (results : Option JsonValue)
deriving DecidableEq

/-- Backend oracle for one `fetch(...)` + `response.json()` pair: either
the transport layer throws (network failure or a non-JSON body) with an
error message, or a parsed JSON body is produced. -/
inductive FetchResult where
  | throws (msg : String)
  | ok (body : JsonValue)
deriving DecidableEq

/-- Message of the `TypeError` thrown by a property read on `null`
(the exact wording of the browser message is presentation detail). -/
def typeErrorMessage : String := "Cannot read properties of null"

/-- JS string concatenation coercion for a prefix plus `v` where `v` is
a response field: `undefined` prints as "undefined". -/
def jsPlusString : Option JsonValue → String
  | none => "undefined"
  | some v => jsToString v

/-- Does a parsed response take the failure path of the shared
`if (result.success)` test: the body is `null` (reading `.success`
throws into the catch) or its `success` field is absent or falsy. -/
def respFails : JsonValue → Bool
  | .null => true
  | body => !truthyOpt (jsField body "success")

/-- `uploadPDF()` (main.js lines 58-100). `file` is the selected file
(`none` when the file input is empty); `resp` the backend oracle. The
result is the new global state and the effect trace. -/
def uploadPDF (file : Option String) (resp : FetchResult) (st : AppState) :
    AppState × List Ev :=
  match file with
  | none => (st, [.alert "请选择PDF文件"])
  | some _ =>
    let pre : List Ev :=
      [.status "pdf" .processing, .showLoading "PDF上传", .network "/api/upload_pdf"]
    let failTrace : String → List Ev := fun msg =>
      pre ++ [.alert msg, .status "pdf" .error, .hideLoading "PDF上传"]
    match resp with
    | .throws m => (st, failTrace ("上传失败: " ++ m))
    | .ok .null => (st, failTrace ("上传失败: " ++ typeErrorMessage))
    | .ok body =>
      if truthyOpt (jsField body "success") then
        let content := jsField body "markdown_content"
        ({ st with currentMarkdownContent := content },
         pre ++
          [.setText "markdownContent" (jsPlusString content),
           .showResult "markdownResult",
           .status "pdf" .success,
           .toggleButton "extractBtn" true,
           .hideLoading "PDF上传"])
      else
        (st, failTrace ("转换失败: " ++ jsPlusString (jsField body "error")))

/-- `extractContent()` (main.js lines 103-143). The success branch
assigns `currentExtractedInfo` before calling
`displayExtractionResults`, whose `TypeError` (if any) is caught by the
surrounding catch — so that assignment survives such a failure. -/
def extractContent (resp : FetchResult) (st : AppState) : AppState × List Ev :=
  if !truthyOpt st.currentMarkdownContent then
    (st, [.alert "请先上传并转换PDF文件"])
  else
    let pre : List Ev :=
      [.status "extract" .processing, .showLoading "内容提取",
       .network "/api/extract_content"]
    let failTrace : String → List Ev := fun msg =>
      pre ++ [.alert msg, .status "extract" .error, .hideLoading "内容提取"]
    match resp with
    | .throws m => (st, failTrace ("提取失败: " ++ m))
    | .ok .null => (st, failTrace ("提取失败: " ++ typeErrorMessage))
    | .ok body =>
      if truthyOpt (jsField body "success") then
        let info := jsField body "extracted_info"
        let st' := { st with currentExtractedInfo := info }
        match displayExtractionResults info with
        | .error _ =>
            (st', failTrace ("提取失败: " ++ typeErrorMessage))
        | .ok disp =>
            (st',
             pre ++
              [.setHtml "keyFactors" (renderFactorsHtml disp),
               .showResult "extractionResult",
               .status "extract" .success,
               .toggleButton "generateBtn" true,
               .hideLoading "内容提取"])
      else
        (st, failTrace ("提取失败: " ++ jsPlusString (jsField body "error")))

/-- Precondition test of `generateFactor`: the guard
`!currentExtractedInfo || Object.keys(currentExtractedInfo).length === 0`. -/
def generateGuardFails (info : Option JsonValue) : Bool :=
  !truthyOpt info ||
    (match info with
     | some v => jsKeysLength v == 0
     | none => true)

/-- `generateFactor()` (main.js lines 221-264). -/
def generateFactor (resp : FetchResult) (st : AppState) : AppState × List Ev :=
  if generateGuardFails st.currentExtractedInfo then
    (st, [.alert "请先提取论文内容"])
  else
    let pre : List Ev :=
      [.status "factor" .processing, .showLoading "因子生成",
       .network "/api/generate_factor"]
    let failTrace : String → List Ev := fun msg =>
      pre ++ [.alert msg, .status "factor" .error, .hideLoading "因子生成"]
    match resp with
    | .throws m => (st, failTrace ("生成失败: " ++ m))
    | .ok .null => (st, failTrace ("生成失败: " ++ typeErrorMessage))
    | .ok body =>
      if truthyOpt (jsField body "success") then
        let code := jsField body "factor_code"
        ({ st with currentFactorCode := code },
         pre ++
          [.setText "factorCode" (jsPlusString code),
           .showResult "factorResult",
           .status "factor" .success,
           .toggleButton "editBtn" true,
           .toggleButton "backtestBtn" true,
           .toggleInput "datasetSelect" true,
           .toggleInput "startDate" true,
           .toggleInput "endDate" true,
           .hideLoading "因子生成"])
      else
        (st, failTrace ("生成失败: " ++ jsPlusString (jsField body "error")))

/-- `runBacktest()` (main.js lines 304-352). `dataset`, `startDate`,
`endDate` are the current values of the three form inputs; the rendering
of a successful result (`displayBacktestResults`) is modelled as the
`renderBacktest` effect, while the chart lifecycle it triggers is
modelled separately by `drawReturnsChart`. -/
def runBacktest (dataset _startDate _endDate : String) (resp : FetchResult)
    (st : AppState) : AppState × List Ev :=
  if !truthyOpt st.currentFactorCode then
    (st, [.alert "请先生成因子代码"])
  else if dataset = "" then
    (st, [.alert "请选择数据集"])
  else
    let pre : List Ev :=
      [.status "backtest" .processing, .showLoading "回测分析",
       .network "/api/run_backtest"]
    let failTrace : String → List Ev := fun msg =>
      pre ++ [.alert msg, .status "backtest" .error, .hideLoading "回测分析"]
    match resp with
    | .throws m => (st, failTrace ("回测失败: " ++ m))
    | .ok .null => (st, failTrace ("回测失败: " ++ typeErrorMessage))
    | .ok body =>
      if truthyOpt (jsField body "success") then
        (st,
         pre ++
          [.renderBacktest (jsField body "results"),
           .showResult "backtestResult",
           .status "backtest" .success,
           .hideLoading "回测分析"])
      else
        (st, failTrace ("回测失败: " ++ jsPlusString (jsField body "error")))

/-- The `cumulative_returns` payload consumed by `drawReturnsChart`:
date labels and the six return-ratio series. Ratios are modelled as
rationals (IEEE doubles in the source; none of the claims under study
depends on float rounding artifacts). -/
structure CumReturns where
  dates : List String
  Q1 : List ℚ
  Q2 : List ℚ
  Q3 : List ℚ
  Q4 : List ℚ
  Q5 : List ℚ
  long_short : List ℚ

/-- Model of JS `Number.prototype.toFixed(1)` on a rational: round to
the nearest tenth, ties toward the larger value, render with exactly
one fractional digit. -/
def toFixed1 (q : ℚ) : String :=
  let n : Int := round (q * 10)
  (if n < 0 then "-" else "") ++ toString (n.natAbs / 10) ++ "." ++ toString (n.natAbs % 10)

/-- One dataset entry of the Chart.js config built by `drawReturnsChart`
(main.js lines 401-451); colors/width/tension are presentation detail
outside the model. -/
structure ChartDataset where
  label : String
  data : List ℚ

/-- The Chart.js config of `drawReturnsChart`: the shared date labels,
the dataset list, and the y-axis ticks callback
`(value * 100).toFixed(1)` plus a percent sign (lines 479-483). -/
structure ChartConfig where
  labels : List String
  datasets : List ChartDataset
  yTickCallback : ℚ → String

/-- The config literal passed to `new Chart(ctx, ...)` by
`drawReturnsChart` for a given `cumulative_returns` payload. -/
def chartConfigOf (data : CumReturns) : ChartConfig :=
  { labels := data.dates
    datasets :=
      [{ label := "Q1 (最低)", data := data.Q1 },
       { label := "Q2", data := data.Q2 },
       { label := "Q3", data := data.Q3 },
       { label := "Q4", data := data.Q4 },
       { label := "Q5 (最高)", data := data.Q5 },
       { label := "多空策略", data := data.long_short }]
    yTickCallback := fun value => toFixed1 (value * 100) ++ "%" }

/-- A live Chart.js instance attached to the canvas context. -/
structure ChartInstance where
  id : Nat
  config : ChartConfig

/-- The chart-related mutable state: the `backtestChart` global (the id
of the instance it references, `none` initially), the instances
currently attached to the canvas (a `destroy()` detaches one), and a
fresh-id counter for `new Chart(...)`. -/
structure ChartState where
  backtestChart : Option Nat
  attached : List ChartInstance
  nextId : Nat

/-- Chart state at page load (`let backtestChart = null`). -/
def initChartState : ChartState :=
  { backtestChart := none, attached := [], nextId := 0 }

/-- `drawReturnsChart(data)` (main.js lines 389-492): destroy the chart
held by `backtestChart` when there is one, then attach a new instance
with the config for `data` and store its handle in `backtestChart`. -/
def drawReturnsChart (cs : ChartState) (data : CumReturns) : ChartState :=
  let afterDestroy : ChartState :=
    match cs.backtestChart with
    | some cid => { cs with attached := cs.attached.filter (fun inst => inst.id ≠ cid) }
    | none => cs
  { backtestChart := some afterDestroy.nextId
    attached := afterDestroy.attached ++ [⟨afterDestroy.nextId, chartConfigOf data⟩]
    nextId := afterDestroy.nextId + 1 }

/-- Repeated invocations of `drawReturnsChart`, one per backtest run. -/
def renderAll (cs : ChartState) (runs : List CumReturns) : ChartState :=
  runs.foldl drawReturnsChart cs

/-! ### Helper lemmas -/

theorem mem_cleared {x : String} {l : List String}
    (hx : x ∈ allStatusClasses.foldl classListRemove l) : x ∉ allStatusClasses := by
  have h : x ∈ ((((l.filter (fun c => c ≠ "bg-secondary")).filter
      (fun c => c ≠ "bg-warning")).filter
      (fun c => c ≠ "bg-success")).filter (fun c => c ≠ "bg-danger")) := hx
  simp only [List.mem_filter, decide_eq_true_eq] at h
  simp only [allStatusClasses, List.mem_cons, List.not_mem_nil]
  rcases h with ⟨⟨⟨⟨_, h1⟩, h2⟩, h3⟩, h4⟩
  tauto

theorem statusClass_mem (s : Status) : statusClass s ∈ allStatusClasses := by
  cases s <;> simp [statusClass, allStatusClasses]

theorem cleared_of_clean {l : List String}
    (h : ∀ x ∈ l, x ∉ allStatusClasses) :
    allStatusClasses.foldl classListRemove l = l := by
  show ((((l.filter (fun c => c ≠ "bg-secondary")).filter
      (fun c => c ≠ "bg-warning")).filter
      (fun c => c ≠ "bg-success")).filter (fun c => c ≠ "bg-danger")) = l
  have h1 : l.filter (fun c => c ≠ "bg-secondary") = l := by
    rw [List.filter_eq_self]
    intro a ha
    simpa using fun he => h a ha (by simp [allStatusClasses, he])
  rw [h1]
  have h2 : l.filter (fun c => c ≠ "bg-warning") = l := by
    rw [List.filter_eq_self]
    intro a ha
    simpa using fun he => h a ha (by simp [allStatusClasses, he])
  rw [h2]
  have h3 : l.filter (fun c => c ≠ "bg-success") = l := by
    rw [List.filter_eq_self]
    intro a ha
    simpa using fun he => h a ha (by simp [allStatusClasses, he])
  rw [h3]
  rw [List.filter_eq_self]
  intro a ha
  simpa using fun he => h a ha (by simp [allStatusClasses, he])

theorem cleared_filter_nil (l : List String) :
    (allStatusClasses.foldl classListRemove l).filter
      (fun c => c ∈ allStatusClasses) = [] := by
  rw [List.filter_eq_nil_iff]
  intro a ha
  simpa using mem_cleared ha

theorem statusEl_ext {a b : StatusEl} (h1 : a.classes = b.classes)
    (h2 : a.text = b.text) : a = b := by
  cases a
  cases b
  cases h1
  cases h2
  rfl

theorem cleared_append (l1 l2 : List String) :
    allStatusClasses.foldl classListRemove (l1 ++ l2) =
      allStatusClasses.foldl classListRemove l1 ++
        allStatusClasses.foldl classListRemove l2 := by
  simp only [allStatusClasses, List.foldl_cons, List.foldl_nil, classListRemove,
    List.filter_append]

theorem cleared_single (s : Status) :
    allStatusClasses.foldl classListRemove [statusClass s] = [] := by
  cases s <;> decide

/-! ### Claim theorems -/

/-- C9: `updateStatus` removes every status style class other than the
one for the given status before applying it, so after any call exactly
one status class is active, and a repeated call with the same step and
status is idempotent: the same single active style class, no duplicate
classes accumulating. -/
theorem updateStatus_exclusive_and_idempotent (el : StatusEl) (s : Status) :
    (updateStatus el s).classes.filter (fun c => c ∈ allStatusClasses)
        = [statusClass s] ∧
      updateStatus (updateStatus el s) s = updateStatus el s := by
  have hnotmem : statusClass s ∉ allStatusClasses.foldl classListRemove el.classes :=
    fun h => mem_cleared h (statusClass_mem s)
  constructor
  · show (classListAdd (allStatusClasses.foldl classListRemove el.classes)
        (statusClass s)).filter (fun c => c ∈ allStatusClasses) = [statusClass s]
    rw [classListAdd, if_neg hnotmem, List.filter_append, cleared_filter_nil]
    simp [statusClass_mem s]
  · have hclasses : (updateStatus el s).classes =
        allStatusClasses.foldl classListRemove el.classes ++ [statusClass s] := by
      show classListAdd _ _ = _
      rw [classListAdd, if_neg hnotmem]
    have hL : ∀ x ∈ allStatusClasses.foldl classListRemove el.classes,
        x ∉ allStatusClasses := fun _ hx => mem_cleared hx
    apply statusEl_ext
    · show classListAdd
        (allStatusClasses.foldl classListRemove (updateStatus el s).classes)
        (statusClass s) =
          classListAdd (allStatusClasses.foldl classListRemove el.classes)
            (statusClass s)
      rw [hclasses, cleared_append, cleared_of_clean hL, cleared_single,
        List.append_nil]
    · rfl

/-- Exactly one chart instance is attached and it is the one the
`backtestChart` global references. -/
def oneChart (cs : ChartState) : Prop :=
  ∃ inst : ChartInstance, cs.attached = [inst] ∧ cs.backtestChart = some inst.id

theorem drawReturnsChart_oneChart_of_init (d : CumReturns) :
    oneChart (drawReturnsChart initChartState d) :=
  ⟨⟨0, chartConfigOf d⟩, rfl, rfl⟩

theorem drawReturnsChart_oneChart (cs : ChartState) (d : CumReturns)
    (h : oneChart cs) : oneChart (drawReturnsChart cs d) := by
  obtain ⟨inst, ha, hb⟩ := h
  refine ⟨⟨cs.nextId, chartConfigOf d⟩, ?_, ?_⟩
  all_goals simp [drawReturnsChart, hb, ha]

theorem renderAll_oneChart (runs : List CumReturns) (cs : ChartState)
    (h : oneChart cs) : oneChart (renderAll cs runs) := by
  induction runs generalizing cs with
  | nil => exact h
  | cons r rs ih => exact ih _ (drawReturnsChart_oneChart cs r h)

/-- C6: every render destroys the previously stored chart instance
before creating the new one, so any nonempty sequence of renders
starting from page load leaves exactly one chart instance attached. -/
theorem drawReturnsChart_no_leak (runs : List CumReturns) (h : runs ≠ []) :
    (renderAll initChartState runs).attached.length = 1 := by
  match runs, h with
  | r :: rs, _ =>
    have h1 : oneChart (renderAll initChartState (r :: rs)) := by
      have : renderAll initChartState (r :: rs) =
          renderAll (drawReturnsChart initChartState r) rs := rfl
      rw [this]
      exact renderAll_oneChart rs _ (drawReturnsChart_oneChart_of_init r)
    obtain ⟨inst, ha, _⟩ := h1
    rw [ha]
    rfl

/-- C6 witness: two consecutive renders from page load leave one chart. -/
theorem drawReturnsChart_no_leak_witness :
    ([(⟨[], [], [], [], [], [], []⟩ : CumReturns),
      (⟨[], [], [], [], [], [], []⟩ : CumReturns)] ≠
        ([] : List CumReturns)) ∧
      (renderAll initChartState
        [(⟨[], [], [], [], [], [], []⟩ : CumReturns),
         (⟨[], [], [], [], [], [], []⟩ : CumReturns)]).attached.length = 1 :=
  ⟨by simp,
   drawReturnsChart_no_leak
     [(⟨[], [], [], [], [], [], []⟩ : CumReturns),
      (⟨[], [], [], [], [], [], []⟩ : CumReturns)] (by simp)⟩

/-- C7: for every cumulative-returns input the chart config holds
exactly six series, in the fixed order Q1, Q2, Q3, Q4, Q5, long_short
over the shared date labels, the stored data of each series being exactly the
input series (nothing mutated or rescaled), and the y-axis tick
callback renders a ratio as its percentage with one decimal place and a
percent sign. -/
theorem drawReturnsChart_series_and_ticks (d : CumReturns) :
    (chartConfigOf d).labels = d.dates ∧
      (chartConfigOf d).datasets.map ChartDataset.label =
        ["Q1 (最低)", "Q2", "Q3", "Q4", "Q5 (最高)", "多空策略"] ∧
      (chartConfigOf d).datasets.map ChartDataset.data =
        [d.Q1, d.Q2, d.Q3, d.Q4, d.Q5, d.long_short] ∧
      ∀ v : ℚ, (chartConfigOf d).yTickCallback v = toFixed1 (v * 100) ++ "%" :=
  ⟨rfl, rfl, rfl, fun _ => rfl⟩

theorem normalizeKeyFactors_arr (elems : List JsonValue) :
    normalizeKeyFactors (some (.arr elems)) =
      (mapFactors elems).map FactorsDisplay.factors := by
  rw [normalizeKeyFactors]
  cases mapFactors elems <;> rfl

theorem normalizeKeyFactors_str {s : String} (h : s ≠ "") :
    normalizeKeyFactors (some (.str s)) =
      match jsonParse s with
      | some (.arr elems) => (mapFactors elems).map FactorsDisplay.factors
      | some _ => .ok .formatError
      | none => .ok (.parseFailure s) := by
  rw [normalizeKeyFactors, if_neg h]
  rcases hp : jsonParse s with - | v
  · rfl
  · cases v with
    | arr elems => cases hm : mapFactors elems <;> simp [hm, Except.map]
    | null => rfl
    | bool b => rfl
    | num n => rfl
    | str t => rfl
    | obj fields => rfl

theorem normalizeKeyFactors_obj (fields : List (String × JsonValue)) :
    normalizeKeyFactors (some (.obj fields)) =
      .ok (.factors (fields.map (fun kv =>
        { name := kv.1
          description := match kv.2 with
            | .str t => t
            | v => jsonStringify v
          type := "提取的因子" }))) := rfl

theorem factorOfElem_obj (fields : List (String × JsonValue)) :
    factorOfElem (.obj fields) =
      .ok { name := fieldVal (jsLookup fields "name") "未知因子"
            description := fieldVal (jsLookup fields "description") "无描述"
            type := fieldVal (jsLookup fields "type") "未分类" } := rfl

theorem factorOfElem_ok {v : JsonValue} (h : v ≠ .null) :
    ∃ f, factorOfElem v = .ok f := by
  cases v with
  | null => exact absurd rfl h
  | bool b => exact ⟨_, rfl⟩
  | num n => exact ⟨_, rfl⟩
  | str s => exact ⟨_, rfl⟩
  | arr elems => exact ⟨_, rfl⟩
  | obj fields => exact ⟨_, rfl⟩

theorem mapFactors_ok_of_nonnull {elems : List JsonValue}
    (h : ∀ x ∈ elems, x ≠ .null) : ∃ fs, mapFactors elems = .ok fs := by
  induction elems with
  | nil => exact ⟨[], rfl⟩
  | cons x xs ih =>
    obtain ⟨f, hf⟩ := factorOfElem_ok (h x (by simp))
    obtain ⟨fs, hfs⟩ := ih (fun y hy => h y (by simp [hy]))
    exact ⟨f :: fs, by rw [mapFactors, hf, hfs]⟩

theorem mapFactors_forall₂ {elems : List JsonValue} {fs : List Factor}
    (h : mapFactors elems = .ok fs) :
    List.Forall₂ (fun x f => factorOfElem x = .ok f) elems fs := by
  induction elems generalizing fs with
  | nil =>
    cases h
    exact List.Forall₂.nil
  | cons x xs ih =>
    rw [mapFactors] at h
    rcases hx : factorOfElem x with e | f
    · rw [hx] at h
      cases h
    · rw [hx] at h
      rcases hxs : mapFactors xs with e | fs'
      · rw [hxs] at h
        cases h
      · rw [hxs] at h
        cases h
        exact List.Forall₂.cons hx (ih hxs)

/-- Behavior of one displayed factor field: the placeholder exactly on
an absent or falsy source field, and the string coercion of the source
value on a truthy one. -/
def defaultedField (fields : List (String × JsonValue)) (key out dflt : String) : Prop :=
  (jsLookup fields key = none → out = dflt) ∧
  (∀ v, jsLookup fields key = some v → jsTruthy v = false → out = dflt) ∧
  (∀ v, jsLookup fields key = some v → jsTruthy v = true → out = jsToString v)

theorem fieldVal_defaulted (fields : List (String × JsonValue))
    (key dflt : String) :
    defaultedField fields key (fieldVal (jsLookup fields key) dflt) dflt := by
  refine ⟨fun h => ?_, fun v hv hf => ?_, fun v hv ht => ?_⟩
  · rw [h]
    rfl
  · rw [hv, fieldVal, if_neg (by simp [hf])]
  · rw [hv, fieldVal, if_pos ht]

/-- C1 counterexample: on the text input `""` (a string, hence "text",
whose JSON parse fails) the code produces the nothing-extracted marker,
not the claimed failed-parse format-error marker carrying the raw text
— the empty string is falsy, so the string branch is never entered. -/
theorem normalizeKeyFactors_empty_text_counterexample :
    jsonParse "" = none ∧
      normalizeKeyFactors (some (.str "")) = .ok .noFactors ∧
      normalizeKeyFactors (some (.str "")) ≠ .ok (.parseFailure "") ∧
      normalizeKeyFactors (some (.str "")) ≠ .ok .formatError := by
  decide

/-- C1 amended: the four-way resolution of `key_factors` holds with the
text branch restricted to nonempty text, and with the final branch
(nothing-extracted marker) covering the absent input, `null`, the empty
string, and the boolean/number primitives — every value that is falsy
or of a `typeof` the chain does not test — rather than only absent and
`null`; the nothing-extracted marker stays distinct from the
format-error marker. -/
theorem normalizeKeyFactors_resolution :
    (∀ elems : List JsonValue,
        normalizeKeyFactors (some (.arr elems)) =
          (mapFactors elems).map FactorsDisplay.factors) ∧
      (∀ s : String, s ≠ "" →
        normalizeKeyFactors (some (.str s)) =
          match jsonParse s with
          | some (.arr elems) => (mapFactors elems).map FactorsDisplay.factors
          | some _ => .ok .formatError
          | none => .ok (.parseFailure s)) ∧
      (∀ fields : List (String × JsonValue),
        normalizeKeyFactors (some (.obj fields)) =
          .ok (.factors (fields.map (fun kv =>
            { name := kv.1
              description := match kv.2 with
                | .str t => t
                | v => jsonStringify v
              type := "提取的因子" })))) ∧
      (normalizeKeyFactors none = .ok .noFactors ∧
        normalizeKeyFactors (some .null) = .ok .noFactors ∧
        normalizeKeyFactors (some (.str "")) = .ok .noFactors ∧
        (∀ b, normalizeKeyFactors (some (.bool b)) = .ok .noFactors) ∧
        (∀ n : Int, normalizeKeyFactors (some (.num n)) = .ok .noFactors)) ∧
      renderFactorsHtml .noFactors ≠ renderFactorsHtml .formatError :=
  ⟨normalizeKeyFactors_arr,
   fun _ h => normalizeKeyFactors_str h,
   normalizeKeyFactors_obj,
   ⟨rfl, rfl, rfl, fun _ => rfl, fun _ => rfl⟩,
   by decide⟩

/-- Witness for the C1 resolution at a concrete nonempty JSON text. -/
theorem normalizeKeyFactors_resolution_witness :
    normalizeKeyFactors (some (.str "[\x7b\"name\":\"mom\"\x7d]")) =
      .ok (.factors [{ name := "mom", description := "无描述", type := "未分类" }]) := by
  have h := normalizeKeyFactors_resolution.2.1 "[\x7b\"name\":\"mom\"\x7d]" (by decide)
  rw [h]
  decide

/-- C2 counterexample: the element `\x7bname: ""\x7d` has its `name`
field present, yet the output record carries the placeholder — the
source defaults on any falsy value, not only on a missing field. -/
theorem factor_defaults_counterexample :
    jsLookup [("name", JsonValue.str "")] "name" = some (JsonValue.str "") ∧
      normalizeKeyFactors (some (.arr [.obj [("name", .str "")]])) =
        .ok (.factors
          [{ name := "未知因子", description := "无描述", type := "未分类" }]) ∧
      "未知因子" ≠ "" := by
  decide

/-- C2 amended: over a sequence input every element maps through
`factorOfElem`; on an object element the mapping always succeeds, and
each of the three fields is the placeholder exactly when the source
field is absent or falsy, while a truthy source field is rendered by JS
string coercion — hence preserved verbatim whenever it is a string. -/
theorem factor_defaults_amended :
    (∀ (elems : List JsonValue) (fs : List Factor),
        normalizeKeyFactors (some (.arr elems)) = .ok (.factors fs) →
          List.Forall₂ (fun x f => factorOfElem x = .ok f) elems fs) ∧
      (∀ fields : List (String × JsonValue),
        ∃ f : Factor,
          factorOfElem (.obj fields) = .ok f ∧
            defaultedField fields "name" f.name "未知因子" ∧
            defaultedField fields "description" f.description "无描述" ∧
            defaultedField fields "type" f.type "未分类") ∧
      (∀ s : String, jsToString (.str s) = s) := by
  refine ⟨fun elems fs h => ?_, fun fields => ?_, fun _ => rfl⟩
  · rw [normalizeKeyFactors_arr] at h
    rcases hm : mapFactors elems with e | fs'
    · rw [hm] at h
      cases h
    · rw [hm] at h
      cases h
      exact mapFactors_forall₂ hm
  · refine ⟨_, factorOfElem_obj fields, ?_, ?_, ?_⟩ <;>
      exact fieldVal_defaulted fields _ _

/-- Witness for the C2 mapping at a concrete sequence with one present
truthy field, one present falsy field, and one absent field. -/
theorem factor_defaults_amended_witness :
    (List.Forall₂ (fun x f => factorOfElem x = .ok f)
      [JsonValue.obj [("name", .str "mom"), ("description", .str "")]]
      [{ name := "mom", description := "无描述", type := "未分类" }]) ∧
      jsToString (.str "mom") = "mom" := by
  constructor
  · refine factor_defaults_amended.1
      [JsonValue.obj [("name", .str "mom"), ("description", .str "")]]
      [{ name := "mom", description := "无描述", type := "未分类" }] ?_
    decide
  · exact factor_defaults_amended.2.2 "mom"

/-- Does every element that the `key_factors` value would map over
(directly for an array, after decoding for JSON text) differ from
`null`? Property reads on a `null` element throw. -/
def seqElemsNonNull : Option JsonValue → Bool
  | some (.arr elems) => elems.all (fun x => x != JsonValue.null)
  | some (.str s) =>
    (match jsonParse s with
     | some (.arr elems) => elems.all (fun x => x != JsonValue.null)
     | _ => true)
  | _ => true

/-- C3 counterexample: the ordered-sequence input `[null]` makes the
normalizer throw (a `TypeError` from `factor.name` on the `null`
element) instead of producing an output or marker. -/
theorem normalizeKeyFactors_throws_counterexample :
    jsGetField JsonValue.null "name" = .error () ∧
      normalizeKeyFactors (some (.arr [JsonValue.null])) = .error () ∧
      normalizeKeyFactors (some (.str "[null]")) = .error () := by
  decide

/-- C3 amended: on every shape variant of `key_factors` whose mapped
sequence elements (when there are any) are non-`null`, the normalizer
terminates without throwing, yielding a factor list or one of the
markers. -/
theorem normalizeKeyFactors_total (kf : Option JsonValue)
    (h : seqElemsNonNull kf = true) :
    ∃ d : FactorsDisplay, normalizeKeyFactors kf = .ok d := by
  match kf with
  | none => exact ⟨_, rfl⟩
  | some .null => exact ⟨_, rfl⟩
  | some (.bool b) => exact ⟨_, rfl⟩
  | some (.num n) => exact ⟨_, rfl⟩
  | some (.obj fields) => exact ⟨_, rfl⟩
  | some (.arr elems) =>
    rw [seqElemsNonNull, List.all_eq_true] at h
    obtain ⟨fs, hfs⟩ :=
      mapFactors_ok_of_nonnull (fun x hx => by simpa using h x hx)
    exact ⟨.factors fs, by rw [normalizeKeyFactors_arr, hfs]; rfl⟩
  | some (.str s) =>
    by_cases hs : s = ""
    · exact ⟨.noFactors, by rw [hs]; rfl⟩
    · rw [normalizeKeyFactors_str hs]
      rw [seqElemsNonNull] at h
      rcases hp : jsonParse s with - | v
      · exact ⟨_, rfl⟩
      · cases v with
        | arr elems =>
          rw [hp, List.all_eq_true] at h
          obtain ⟨fs, hfs⟩ :=
            mapFactors_ok_of_nonnull (fun x hx => by simpa using h x hx)
          exact ⟨.factors fs, by simp [hfs, Except.map]⟩
        | null => exact ⟨_, rfl⟩
        | bool b => exact ⟨_, rfl⟩
        | num n => exact ⟨_, rfl⟩
        | str t => exact ⟨_, rfl⟩
        | obj fields => exact ⟨_, rfl⟩

/-- Witness for C3 totality across the shape variants at concrete
inputs: a sequence, a JSON-text sequence, invalid JSON text, a mapping,
and the absent input. -/
theorem normalizeKeyFactors_total_witness :
    (seqElemsNonNull (some (.arr [.obj [("name", .str "mom")]])) = true ∧
        ∃ d, normalizeKeyFactors (some (.arr [.obj [("name", .str "mom")]])) = .ok d) ∧
      (seqElemsNonNull (some (.str "[3]")) = true ∧
        ∃ d, normalizeKeyFactors (some (.str "[3]")) = .ok d) ∧
      (seqElemsNonNull (some (.str "oops")) = true ∧
        ∃ d, normalizeKeyFactors (some (.str "oops")) = .ok d) ∧
      (seqElemsNonNull (some (.obj [("mom", .num 1)])) = true ∧
        ∃ d, normalizeKeyFactors (some (.obj [("mom", .num 1)])) = .ok d) ∧
      (seqElemsNonNull none = true ∧
        ∃ d, normalizeKeyFactors none = .ok d) :=
  ⟨⟨by decide, normalizeKeyFactors_total _ (by decide)⟩,
   ⟨by decide, normalizeKeyFactors_total _ (by decide)⟩,
   ⟨by decide, normalizeKeyFactors_total _ (by decide)⟩,
   ⟨by decide, normalizeKeyFactors_total _ (by decide)⟩,
   ⟨by decide, normalizeKeyFactors_total _ (by decide)⟩⟩

theorem truthyOpt_none : truthyOpt none = false := rfl

/-- Status updates of one step in an effect trace, in order. -/
def statusEvs (step : String) (evs : List Ev) : List Status :=
  evs.filterMap (fun e =>
    match e with
    | .status s t => if s = step then some t else none
    | _ => none)

/-- Does the backend interaction take the shared failure path: the
transport throws, the body is `null` (reading `.success` throws), or the
`success` field is absent or falsy. -/
def fetchFails : FetchResult → Bool
  | .throws _ => true
  | .ok body => respFails body

theorem uploadPDF_cases (file : Option String) (resp : FetchResult) (st : AppState) :
    uploadPDF file resp st = (st, [.alert "请选择PDF文件"]) ∨
      (∃ msg, uploadPDF file resp st =
        (st, [.status "pdf" .processing, .showLoading "PDF上传",
              .network "/api/upload_pdf", .alert msg, .status "pdf" .error,
              .hideLoading "PDF上传"])) ∨
      (∃ body, resp = .ok body ∧ truthyOpt (jsField body "success") = true ∧
        uploadPDF file resp st =
          ({ st with currentMarkdownContent := jsField body "markdown_content" },
           [.status "pdf" .processing, .showLoading "PDF上传",
            .network "/api/upload_pdf",
            .setText "markdownContent"
              (jsPlusString (jsField body "markdown_content")),
            .showResult "markdownResult", .status "pdf" .success,
            .toggleButton "extractBtn" true, .hideLoading "PDF上传"])) := by
  cases file with
  | none => exact Or.inl rfl
  | some f =>
    cases resp with
    | throws m => exact Or.inr (Or.inl ⟨_, rfl⟩)
    | ok body =>
      cases body with
      | null => exact Or.inr (Or.inl ⟨_, rfl⟩)
      | bool b => exact Or.inr (Or.inl ⟨_, rfl⟩)
      | num n => exact Or.inr (Or.inl ⟨_, rfl⟩)
      | str s => exact Or.inr (Or.inl ⟨_, rfl⟩)
      | arr elems => exact Or.inr (Or.inl ⟨_, rfl⟩)
      | obj fields =>
        cases hs : truthyOpt (jsLookup fields "success") with
        | false =>
          refine Or.inr (Or.inl
            ⟨"转换失败: " ++ jsPlusString (jsLookup fields "error"), ?_⟩)
          simp [uploadPDF, jsField, hs]
        | true =>
          refine Or.inr (Or.inr ⟨JsonValue.obj fields, rfl, hs, ?_⟩)
          simp [uploadPDF, jsField, hs]

theorem extractContent_cases (resp : FetchResult) (st : AppState) :
    extractContent resp st = (st, [.alert "请先上传并转换PDF文件"]) ∨
      (∃ info msg, extractContent resp st =
        ({ st with currentExtractedInfo := info },
         [.status "extract" .processing, .showLoading "内容提取",
          .network "/api/extract_content", .alert msg,
          .status "extract" .error, .hideLoading "内容提取"])) ∨
      (∃ body, resp = .ok body ∧ truthyOpt (jsField body "success") = true ∧
        ∃ disp, displayExtractionResults (jsField body "extracted_info") = .ok disp ∧
          extractContent resp st =
            ({ st with currentExtractedInfo := jsField body "extracted_info" },
             [.status "extract" .processing, .showLoading "内容提取",
              .network "/api/extract_content",
              .setHtml "keyFactors" (renderFactorsHtml disp),
              .showResult "extractionResult", .status "extract" .success,
              .toggleButton "generateBtn" true, .hideLoading "内容提取"])) := by
  cases hg : truthyOpt st.currentMarkdownContent with
  | false =>
    refine Or.inl ?_
    simp [extractContent, hg]
  | true =>
    cases resp with
    | throws m =>
      refine Or.inr (Or.inl ⟨st.currentExtractedInfo, "提取失败: " ++ m, ?_⟩)
      simp [extractContent, hg]
    | ok body =>
      cases body with
      | null =>
        refine Or.inr (Or.inl
          ⟨st.currentExtractedInfo, "提取失败: " ++ typeErrorMessage, ?_⟩)
        simp [extractContent, hg]
      | bool b =>
        refine Or.inr (Or.inl
          ⟨st.currentExtractedInfo, "提取失败: " ++ jsPlusString none, ?_⟩)
        simp [extractContent, hg, jsField, truthyOpt_none]
      | num n =>
        refine Or.inr (Or.inl
          ⟨st.currentExtractedInfo, "提取失败: " ++ jsPlusString none, ?_⟩)
        simp [extractContent, hg, jsField, truthyOpt_none]
      | str s =>
        refine Or.inr (Or.inl
          ⟨st.currentExtractedInfo, "提取失败: " ++ jsPlusString none, ?_⟩)
        simp [extractContent, hg, jsField, truthyOpt_none]
      | arr elems =>
        refine Or.inr (Or.inl
          ⟨st.currentExtractedInfo, "提取失败: " ++ jsPlusString none, ?_⟩)
        simp [extractContent, hg, jsField, truthyOpt_none]
      | obj fields =>
        cases hs : truthyOpt (jsLookup fields "success") with
        | false =>
          refine Or.inr (Or.inl ⟨st.currentExtractedInfo,
            "提取失败: " ++ jsPlusString (jsLookup fields "error"), ?_⟩)
          simp [extractContent, hg, jsField, hs]
        | true =>
          cases hd : displayExtractionResults (jsLookup fields "extracted_info") with
          | error e =>
            refine Or.inr (Or.inl ⟨jsLookup fields "extracted_info",
              "提取失败: " ++ typeErrorMessage, ?_⟩)
            simp [extractContent, hg, jsField, hs, hd]
          | ok disp =>
            refine Or.inr (Or.inr ⟨JsonValue.obj fields, rfl, hs, disp, hd, ?_⟩)
            simp [extractContent, hg, jsField, hs, hd]

theorem generateFactor_cases (resp : FetchResult) (st : AppState) :
    generateFactor resp st = (st, [.alert "请先提取论文内容"]) ∨
      (∃ msg, generateFactor resp st =
        (st, [.status "factor" .processing, .showLoading "因子生成",
              .network "/api/generate_factor", .alert msg,
              .status "factor" .error, .hideLoading "因子生成"])) ∨
      (∃ body, resp = .ok body ∧ truthyOpt (jsField body "success") = true ∧
        generateFactor resp st =
          ({ st with currentFactorCode := jsField body "factor_code" },
           [.status "factor" .processing, .showLoading "因子生成",
            .network "/api/generate_factor",
            .setText "factorCode" (jsPlusString (jsField body "factor_code")),
            .showResult "factorResult", .status "factor" .success,
            .toggleButton "editBtn" true, .toggleButton "backtestBtn" true,
            .toggleInput "datasetSelect" true, .toggleInput "startDate" true,
            .toggleInput "endDate" true, .hideLoading "因子生成"])) := by
  cases hg : generateGuardFails st.currentExtractedInfo with
  | true =>
    refine Or.inl ?_
    simp [generateFactor, hg]
  | false =>
    cases resp with
    | throws m =>
      refine Or.inr (Or.inl ⟨"生成失败: " ++ m, ?_⟩)
      simp [generateFactor, hg]
    | ok body =>
      cases body with
      | null =>
        refine Or.inr (Or.inl ⟨"生成失败: " ++ typeErrorMessage, ?_⟩)
        simp [generateFactor, hg]
      | bool b =>
        refine Or.inr (Or.inl ⟨"生成失败: " ++ jsPlusString none, ?_⟩)
        simp [generateFactor, hg, jsField, truthyOpt_none]
      | num n =>
        refine Or.inr (Or.inl ⟨"生成失败: " ++ jsPlusString none, ?_⟩)
        simp [generateFactor, hg, jsField, truthyOpt_none]
      | str s =>
        refine Or.inr (Or.inl ⟨"生成失败: " ++ jsPlusString none, ?_⟩)
        simp [generateFactor, hg, jsField, truthyOpt_none]
      | arr elems =>
        refine Or.inr (Or.inl ⟨"生成失败: " ++ jsPlusString none, ?_⟩)
        simp [generateFactor, hg, jsField, truthyOpt_none]
      | obj fields =>
        cases hs : truthyOpt (jsLookup fields "success") with
        | false =>
          refine Or.inr (Or.inl
            ⟨"生成失败: " ++ jsPlusString (jsLookup fields "error"), ?_⟩)
          simp [generateFactor, hg, jsField, hs]
        | true =>
          refine Or.inr (Or.inr ⟨JsonValue.obj fields, rfl, hs, ?_⟩)
          simp [generateFactor, hg, jsField, hs]

theorem runBacktest_cases (dataset startDate endDate : String)
    (resp : FetchResult) (st : AppState) :
    runBacktest dataset startDate endDate resp st = (st, [.alert "请先生成因子代码"]) ∨
      runBacktest dataset startDate endDate resp st = (st, [.alert "请选择数据集"]) ∨
      (∃ msg, runBacktest dataset startDate endDate resp st =
        (st, [.status "backtest" .processing, .showLoading "回测分析",
              .network "/api/run_backtest", .alert msg,
              .status "backtest" .error, .hideLoading "回测分析"])) ∨
      (∃ body, resp = .ok body ∧ truthyOpt (jsField body "success") = true ∧
        runBacktest dataset startDate endDate resp st =
          (st,
           [.status "backtest" .processing, .showLoading "回测分析",
            .network "/api/run_backtest",
            .renderBacktest (jsField body "results"),
            .showResult "backtestResult", .status "backtest" .success,
            .hideLoading "回测分析"])) := by
  cases hc : truthyOpt st.currentFactorCode with
  | false =>
    refine Or.inl ?_
    simp [runBacktest, hc]
  | true =>
    by_cases hd : dataset = ""
    · refine Or.inr (Or.inl ?_)
      simp [runBacktest, hc, hd]
    · cases resp with
      | throws m =>
        refine Or.inr (Or.inr (Or.inl ⟨"回测失败: " ++ m, ?_⟩))
        simp [runBacktest, hc, hd]
      | ok body =>
        cases body with
        | null =>
          refine Or.inr (Or.inr (Or.inl ⟨"回测失败: " ++ typeErrorMessage, ?_⟩))
          simp [runBacktest, hc, hd]
        | bool b =>
          refine Or.inr (Or.inr (Or.inl ⟨"回测失败: " ++ jsPlusString none, ?_⟩))
          simp [runBacktest, hc, hd, jsField, truthyOpt_none]
        | num n =>
          refine Or.inr (Or.inr (Or.inl ⟨"回测失败: " ++ jsPlusString none, ?_⟩))
          simp [runBacktest, hc, hd, jsField, truthyOpt_none]
        | str s =>
          refine Or.inr (Or.inr (Or.inl ⟨"回测失败: " ++ jsPlusString none, ?_⟩))
          simp [runBacktest, hc, hd, jsField, truthyOpt_none]
        | arr elems =>
          refine Or.inr (Or.inr (Or.inl ⟨"回测失败: " ++ jsPlusString none, ?_⟩))
          simp [runBacktest, hc, hd, jsField, truthyOpt_none]
        | obj fields =>
          cases hs : truthyOpt (jsLookup fields "success") with
          | false =>
            refine Or.inr (Or.inr (Or.inl
              ⟨"回测失败: " ++ jsPlusString (jsLookup fields "error"), ?_⟩))
            simp [runBacktest, hc, hd, jsField, hs]
          | true =>
            refine Or.inr (Or.inr (Or.inr ⟨JsonValue.obj fields, rfl, hs, ?_⟩))
            simp [runBacktest, hc, hd, jsField, hs]

/-- A pipeline state in which every precondition holds: converted
markdown present, nonempty extracted info, generated code present. -/
def sampleState : AppState :=
  { currentMarkdownContent := some (.str "# md")
    currentExtractedInfo := some (.obj [("k", .num 1)])
    currentFactorCode := some (.str "code") }

/-- C4: `runBacktest` invoked without generated code reports only the
code-specific instructional alert, and with code but an empty dataset
selection only the dataset-specific alert; in both cases the returned
state is unchanged and the trace holds no network call, no status
update and no loading toggle. -/
theorem runBacktest_preconditions (st : AppState)
    (dataset startDate endDate : String) (resp : FetchResult) :
    (truthyOpt st.currentFactorCode = false →
        runBacktest dataset startDate endDate resp st =
          (st, [.alert "请先生成因子代码"])) ∧
      (truthyOpt st.currentFactorCode = true → dataset = "" →
        runBacktest dataset startDate endDate resp st =
          (st, [.alert "请选择数据集"])) := by
  constructor
  · intro h
    simp [runBacktest, h]
  · intro h hd
    simp [runBacktest, h, hd]

/-- C4 witness: both precondition failures at concrete inputs. -/
theorem runBacktest_preconditions_witness :
    runBacktest "ds1" "" "" (.throws "boom") initialState =
        (initialState, [.alert "请先生成因子代码"]) ∧
      runBacktest "" "" "" (.throws "boom") sampleState =
        (sampleState, [.alert "请选择数据集"]) :=
  ⟨(runBacktest_preconditions initialState "ds1" "" "" (.throws "boom")).1
      (by decide),
   (runBacktest_preconditions sampleState "" "" "" (.throws "boom")).2
      (by decide) rfl⟩

/-- C5: in each of the four workflow operations, whenever the loading
affordance was shown (the precondition passed), it is hidden again on
the same trace — on the success path, the business-failure path and the
transport-failure path alike, the latter including a thrown backend
call. -/
theorem loading_cleared (file : Option String) (resp : FetchResult)
    (st : AppState) (dataset startDate endDate c : String) :
    (Ev.showLoading c ∈ (uploadPDF file resp st).2 →
        Ev.hideLoading c ∈ (uploadPDF file resp st).2) ∧
      (Ev.showLoading c ∈ (extractContent resp st).2 →
        Ev.hideLoading c ∈ (extractContent resp st).2) ∧
      (Ev.showLoading c ∈ (generateFactor resp st).2 →
        Ev.hideLoading c ∈ (generateFactor resp st).2) ∧
      (Ev.showLoading c ∈ (runBacktest dataset startDate endDate resp st).2 →
        Ev.hideLoading c ∈ (runBacktest dataset startDate endDate resp st).2) := by
  refine ⟨?_, ?_, ?_, ?_⟩
  · rcases uploadPDF_cases file resp st with h | ⟨msg, h⟩ | ⟨body, -, -, h⟩ <;>
      (rw [h]; intro hm; simp_all)
  · rcases extractContent_cases resp st with h | ⟨info, msg, h⟩ | ⟨body, -, -, disp, -, h⟩ <;>
      (rw [h]; intro hm; simp_all)
  · rcases generateFactor_cases resp st with h | ⟨msg, h⟩ | ⟨body, -, -, h⟩ <;>
      (rw [h]; intro hm; simp_all)
  · rcases runBacktest_cases dataset startDate endDate resp st with
      h | h | ⟨msg, h⟩ | ⟨body, -, -, h⟩ <;>
      (rw [h]; intro hm; simp_all)

/-- C5 witness: the loading affordance of each step is cleared after a
thrown backend call from a state in which every precondition holds. -/
theorem loading_cleared_witness :
    Ev.hideLoading "PDF上传" ∈
        (uploadPDF (some "a.pdf") (.throws "x") sampleState).2 ∧
      Ev.hideLoading "内容提取" ∈ (extractContent (.throws "x") sampleState).2 ∧
      Ev.hideLoading "因子生成" ∈ (generateFactor (.throws "x") sampleState).2 ∧
      Ev.hideLoading "回测分析" ∈
        (runBacktest "ds1" "" "" (.throws "x") sampleState).2 :=
  ⟨(loading_cleared (some "a.pdf") (.throws "x") sampleState "ds1" "" "" "PDF上传").1
      (by decide),
   (loading_cleared (some "a.pdf") (.throws "x") sampleState "ds1" "" "" "内容提取").2.1
      (by decide),
   (loading_cleared (some "a.pdf") (.throws "x") sampleState "ds1" "" "" "因子生成").2.2.1
      (by decide),
   (loading_cleared (some "a.pdf") (.throws "x") sampleState "ds1" "" "" "回测分析").2.2.2
      (by decide)⟩

/-- C8: over any invocation of any of the four operations, the status
updates of every step form one of the traces `[]` (precondition
failure: the status is untouched), `[processing, success]` or
`[processing, error]` — processing is set at the start of the backend
call and exactly one terminal status at its completion, and no step
ever jumps from pending straight to a terminal status. -/
theorem status_transitions (file : Option String) (resp : FetchResult)
    (st : AppState) (dataset startDate endDate step : String) :
    ((statusEvs step (uploadPDF file resp st).2 = [] ∨
        statusEvs step (uploadPDF file resp st).2 = [.processing, .success] ∨
        statusEvs step (uploadPDF file resp st).2 = [.processing, .error]) ∧
      (statusEvs step (extractContent resp st).2 = [] ∨
        statusEvs step (extractContent resp st).2 = [.processing, .success] ∨
        statusEvs step (extractContent resp st).2 = [.processing, .error]) ∧
      (statusEvs step (generateFactor resp st).2 = [] ∨
        statusEvs step (generateFactor resp st).2 = [.processing, .success] ∨
        statusEvs step (generateFactor resp st).2 = [.processing, .error]) ∧
      (statusEvs step (runBacktest dataset startDate endDate resp st).2 = [] ∨
        statusEvs step (runBacktest dataset startDate endDate resp st).2 =
          [.processing, .success] ∨
        statusEvs step (runBacktest dataset startDate endDate resp st).2 =
          [.processing, .error])) := by
  refine ⟨?_, ?_, ?_, ?_⟩
  · rcases uploadPDF_cases file resp st with h | ⟨msg, h⟩ | ⟨body, -, -, h⟩
    · rw [h]
      exact Or.inl (by simp [statusEvs])
    · rw [h]
      by_cases hstep : "pdf" = step
      · exact Or.inr (Or.inr (by simp [statusEvs, hstep]))
      · exact Or.inl (by simp [statusEvs, hstep])
    · rw [h]
      by_cases hstep : "pdf" = step
      · exact Or.inr (Or.inl (by simp [statusEvs, hstep]))
      · exact Or.inl (by simp [statusEvs, hstep])
  · rcases extractContent_cases resp st with h | ⟨info, msg, h⟩ | ⟨body, -, -, disp, -, h⟩
    · rw [h]
      exact Or.inl (by simp [statusEvs])
    · rw [h]
      by_cases hstep : "extract" = step
      · exact Or.inr (Or.inr (by simp [statusEvs, hstep]))
      · exact Or.inl (by simp [statusEvs, hstep])
    · rw [h]
      by_cases hstep : "extract" = step
      · exact Or.inr (Or.inl (by simp [statusEvs, hstep]))
      · exact Or.inl (by simp [statusEvs, hstep])
  · rcases generateFactor_cases resp st with h | ⟨msg, h⟩ | ⟨body, -, -, h⟩
    · rw [h]
      exact Or.inl (by simp [statusEvs])
    · rw [h]
      by_cases hstep : "factor" = step
      · exact Or.inr (Or.inr (by simp [statusEvs, hstep]))
      · exact Or.inl (by simp [statusEvs, hstep])
    · rw [h]
      by_cases hstep : "factor" = step
      · exact Or.inr (Or.inl (by simp [statusEvs, hstep]))
      · exact Or.inl (by simp [statusEvs, hstep])
  · rcases runBacktest_cases dataset startDate endDate resp st with
      h | h | ⟨msg, h⟩ | ⟨body, -, -, h⟩
    · rw [h]
      exact Or.inl (by simp [statusEvs])
    · rw [h]
      exact Or.inl (by simp [statusEvs])
    · rw [h]
      by_cases hstep : "backtest" = step
      · exact Or.inr (Or.inr (by simp [statusEvs, hstep]))
      · exact Or.inl (by simp [statusEvs, hstep])
    · rw [h]
      by_cases hstep : "backtest" = step
      · exact Or.inr (Or.inl (by simp [statusEvs, hstep]))
      · exact Or.inl (by simp [statusEvs, hstep])

/-- C10: a failing backend interaction (transport throw, `null` body,
or falsy `success` flag) leaves all three pipeline globals unchanged in
each operation; moreover each operation can only ever assign its own
global (`runBacktest` assigns none), so the others are preserved on
every path. -/
theorem pipeline_state_on_failure (file : Option String) (resp : FetchResult)
    (st : AppState) (dataset startDate endDate : String) :
    ((fetchFails resp = true → (uploadPDF file resp st).1 = st) ∧
        (uploadPDF file resp st).1.currentExtractedInfo = st.currentExtractedInfo ∧
        (uploadPDF file resp st).1.currentFactorCode = st.currentFactorCode) ∧
      ((fetchFails resp = true → (extractContent resp st).1 = st) ∧
        (extractContent resp st).1.currentMarkdownContent = st.currentMarkdownContent ∧
        (extractContent resp st).1.currentFactorCode = st.currentFactorCode) ∧
      ((fetchFails resp = true → (generateFactor resp st).1 = st) ∧
        (generateFactor resp st).1.currentMarkdownContent = st.currentMarkdownContent ∧
        (generateFactor resp st).1.currentExtractedInfo = st.currentExtractedInfo) ∧
      (runBacktest dataset startDate endDate resp st).1 = st := by
  have hupload : ∀ hf : fetchFails resp = true, (uploadPDF file resp st).1 = st := by
    intro hf
    cases file with
    | none => rfl
    | some f =>
      cases resp with
      | throws m => rfl
      | ok body =>
        cases body with
        | null => rfl
        | bool b => rfl
        | num n => rfl
        | str s => rfl
        | arr elems => rfl
        | obj fields =>
          have hs : truthyOpt (jsLookup fields "success") = false := by
            simpa [fetchFails, respFails, jsField] using hf
          simp [uploadPDF, jsField, hs]
  have hextract : ∀ hf : fetchFails resp = true, (extractContent resp st).1 = st := by
    intro hf
    cases hg : truthyOpt st.currentMarkdownContent with
    | false => simp [extractContent, hg]
    | true =>
      cases resp with
      | throws m => simp [extractContent, hg]
      | ok body =>
        cases body with
        | null => simp [extractContent, hg]
        | bool b => simp [extractContent, hg, jsField, truthyOpt_none]
        | num n => simp [extractContent, hg, jsField, truthyOpt_none]
        | str s => simp [extractContent, hg, jsField, truthyOpt_none]
        | arr elems => simp [extractContent, hg, jsField, truthyOpt_none]
        | obj fields =>
          have hs : truthyOpt (jsLookup fields "success") = false := by
            simpa [fetchFails, respFails, jsField] using hf
          simp [extractContent, hg, jsField, hs]
  have hgen : ∀ hf : fetchFails resp = true, (generateFactor resp st).1 = st := by
    intro hf
    cases hg : generateGuardFails st.currentExtractedInfo with
    | true => simp [generateFactor, hg]
    | false =>
      cases resp with
      | throws m => simp [generateFactor, hg]
      | ok body =>
        cases body with
        | null => simp [generateFactor, hg]
        | bool b => simp [generateFactor, hg, jsField, truthyOpt_none]
        | num n => simp [generateFactor, hg, jsField, truthyOpt_none]
        | str s => simp [generateFactor, hg, jsField, truthyOpt_none]
        | arr elems => simp [generateFactor, hg, jsField, truthyOpt_none]
        | obj fields =>
          have hs : truthyOpt (jsLookup fields "success") = false := by
            simpa [fetchFails, respFails, jsField] using hf
          simp [generateFactor, hg, jsField, hs]
  refine ⟨⟨hupload, ?_, ?_⟩, ⟨hextract, ?_, ?_⟩, ⟨hgen, ?_, ?_⟩, ?_⟩
  · rcases uploadPDF_cases file resp st with h | ⟨msg, h⟩ | ⟨body, -, -, h⟩ <;>
      simp [h]
  · rcases uploadPDF_cases file resp st with h | ⟨msg, h⟩ | ⟨body, -, -, h⟩ <;>
      simp [h]
  · rcases extractContent_cases resp st with h | ⟨info, msg, h⟩ | ⟨body, -, -, disp, -, h⟩ <;>
      simp [h]
  · rcases extractContent_cases resp st with h | ⟨info, msg, h⟩ | ⟨body, -, -, disp, -, h⟩ <;>
      simp [h]
  · rcases generateFactor_cases resp st with h | ⟨msg, h⟩ | ⟨body, -, -, h⟩ <;>
      simp [h]
  · rcases generateFactor_cases resp st with h | ⟨msg, h⟩ | ⟨body, -, -, h⟩ <;>
      simp [h]
  · rcases runBacktest_cases dataset startDate endDate resp st with
      h | h | ⟨msg, h⟩ | ⟨body, -, -, h⟩ <;>
      simp [h]

/-- C10 witness: a business failure (`success: false`) leaves the state
of each operation unchanged, and `runBacktest` leaves it unchanged even
on success. -/
theorem pipeline_state_on_failure_witness :
    (uploadPDF (some "a.pdf")
        (.ok (.obj [("success", .bool false), ("error", .str "bad")]))
        sampleState).1 = sampleState ∧
      (extractContent
        (.ok (.obj [("success", .bool false), ("error", .str "bad")]))
        sampleState).1 = sampleState ∧
      (generateFactor
        (.ok (.obj [("success", .bool false), ("error", .str "bad")]))
        sampleState).1 = sampleState ∧
      (runBacktest "ds1" "" "" (.ok (.obj [("success", .bool true)]))
        sampleState).1 = sampleState :=
  ⟨(pipeline_state_on_failure (some "a.pdf")
      (.ok (.obj [("success", .bool false), ("error", .str "bad")]))
      sampleState "ds1" "" "").1.1 (by decide),
   (pipeline_state_on_failure (some "a.pdf")
      (.ok (.obj [("success", .bool false), ("error", .str "bad")]))
      sampleState "ds1" "" "").2.1.1 (by decide),
   (pipeline_state_on_failure (some "a.pdf")
      (.ok (.obj [("success", .bool false), ("error", .str "bad")]))
      sampleState "ds1" "" "").2.2.1.1 (by decide),
   (pipeline_state_on_failure (some "a.pdf")
      (.ok (.obj [("success", .bool true)]))
      sampleState "ds1" "" "").2.2.2⟩

end Autoreplicate
